import Mathlib

/-!
Verification of the Join-MPA client against its specification.

The development shallowly embeds the parts of the repository the claims
touch:

* `src/js/summary/summary-tasks.js` — the statistics aggregator
  (`calculateStats`, `getEmptyStats`, `getNextUrgentDeadline`);
* `src/js/shared/theme-service.js` — the theme state synchronizer
  (`getNextTheme`, `getSystemTheme`, `applyTheme`,
  `setupSystemThemeListener`, with its module-level listener state);
* `src/js/summary/summary-layout.js` — `getRealTheme`;
* `src/service-worker-template.js` — the message listener of the worker and
  `syncSettingsToWorker`.

JavaScript values are embedded as follows: a possibly-absent string field
becomes `Option String` (with `none` for `undefined`); `===` comparison to
a string literal becomes `BEq` on `Option String`; the truthiness test
`t.dueDate &&` holds exactly when the field is present and non-empty.
-/

namespace Join

/-- A task record as read by `summary-tasks.js`.  Only the fields the
summary module inspects are modelled; each may be absent (`none`). -/
structure Task where
  status : Option String
  priority : Option String
  prio : Option String
  dueDate : Option String
  deriving Repr, DecidableEq

/-- The fixed-shape statistics object produced by `calculateStats`. -/
structure Stats where
  total : Nat
  todo : Nat
  done : Nat
  inProgress : Nat
  feedback : Nat
  urgent : Nat
  urgentDeadline : Option String
  deriving Repr, DecidableEq

/-- JS strict equality `field === "literal"` for a possibly-absent string
field: an absent (`undefined`) field compares unequal to every string. -/
def strictEq : Option String → String → Bool
  | none, _ => false
  | some s, x => s == x

/-- The test `t.status === "todo" || t.status === "to-do"` (summary-tasks.js:53). -/
def statusTodo (t : Task) : Bool :=
  strictEq t.status "todo" || strictEq t.status "to-do"

/-- The test `t.status === "done"` (summary-tasks.js:55). -/
def statusDone (t : Task) : Bool :=
  strictEq t.status "done"

/-- The test `t.status === "in-progress" || t.status === "progress"` (summary-tasks.js:57). -/
def statusInProgress (t : Task) : Bool :=
  strictEq t.status "in-progress" || strictEq t.status "progress"

/-- The test `t.status === "awaiting-feedback" || t.status === "await"` (summary-tasks.js:60). -/
def statusFeedback (t : Task) : Bool :=
  strictEq t.status "awaiting-feedback" || strictEq t.status "await"

/-- The test `t.priority === "urgent" || t.prio === "Urgent"` (summary-tasks.js:62). -/
def priorityUrgent (t : Task) : Bool :=
  strictEq t.priority "urgent" || strictEq t.prio "Urgent"

/-- JavaScript truthiness of the `dueDate` field: present and non-empty. -/
def dueDateTruthy : Option String → Bool
  | none => false
  | some s => !(s == "")

/-- Split a character list into the groups separated by the dash
character (the field separator of ISO 8601 dates). -/
def splitDash : List Char → List (List Char)
  | [] => [[]]
  | c :: cs =>
      if c = '-' then [] :: splitDash cs
      else
        match splitDash cs with
        | [] => [[c]]
        | g :: gs => (c :: g) :: gs

/-- Accumulating decimal value of a digit run; `none` on a non-digit. -/
def decDigitsVal : List Char → Nat → Option Nat
  | [], acc => some acc
  | c :: cs, acc =>
      if c.isDigit then decDigitsVal cs (acc * 10 + (c.toNat - 48)) else none

/-- Decimal value of a non-empty all-digit character run. -/
def decValue : List Char → Option Nat
  | [] => none
  | c :: cs => decDigitsVal (c :: cs) 0

/-- Chronological key of an ISO 8601 date string `YYYY-MM-DD`, embedding
the comparator `new Date(a.dueDate) - new Date(b.dueDate)`: the encoding
`y*10000 + m*100 + d` is strictly monotone in the calendar date, so it
orders valid ISO due-date strings exactly as their `Date` values.
A string that is not of that shape gets key 0 (the source leaves the
behaviour of `Invalid Date` comparisons implementation-defined). -/
def dateVal (s : String) : Nat :=
  match (splitDash s.toList).map decValue with
  | [some y, some m, some d] => y * 10000 + m * 100 + d
  | _ => 0

/-- Date key of the possibly absent due date of a task. -/
def dueDateVal : Option String → Nat
  | none => 0
  | some s => dateVal s

/-- The filter predicate of `getNextUrgentDeadline` (summary-tasks.js:124-129):
`(t.priority === "urgent" || t.prio === "Urgent") && t.dueDate && t.status !== "done"`. -/
def urgentPending (t : Task) : Bool :=
  priorityUrgent t && dueDateTruthy t.dueDate && !(strictEq t.status "done")

/-- Stable insertion of a task into a list ascending by due-date key;
an incoming task goes before the first strictly-later task and after
earlier-or-equal ones. -/
def insertByDue (t : Task) : List Task → List Task
  | [] => [t]
  | u :: us =>
      if dueDateVal t.dueDate ≤ dueDateVal u.dueDate then t :: u :: us
      else u :: insertByDue t us

/-- Stable ascending sort by due-date key, embedding
`urgentTasks.sort((a, b) => new Date(a.dueDate) - new Date(b.dueDate))`
(summary-tasks.js:133-135); `Array.prototype.sort` is specified stable. -/
def sortByDue : List Task → List Task
  | [] => []
  | t :: ts => insertByDue t (sortByDue ts)

/-- `getNextUrgentDeadline` (summary-tasks.js:123-138): filter the urgent,
not-done tasks with a (truthy) due date; if none remain return `null`,
else sort ascending by due date and return the due date of the first task. -/
def getNextUrgentDeadline (tasks : List Task) : Option String :=
  let urgentTasks := tasks.filter urgentPending
  if urgentTasks.length = 0 then none
  else
    match sortByDue urgentTasks with
    | [] => none
    | t :: _ => t.dueDate

/-- `getEmptyStats` (summary-tasks.js:73-83). -/
def getEmptyStats : Stats :=
  { total := 0, todo := 0, done := 0, inProgress := 0, feedback := 0,
    urgent := 0, urgentDeadline := none }

/-- `calculateStats` (summary-tasks.js:48-66).  The argument is
`Option (List Task)`: `none` stands for a `null`/`undefined` task list,
for which `!tasks` short-circuits to the empty stats. -/
def calculateStats : Option (List Task) → Stats
  | none => getEmptyStats
  | some tasks =>
      if tasks.length = 0 then getEmptyStats
      else
        { total := tasks.length
          todo := (tasks.filter statusTodo).length
          done := (tasks.filter statusDone).length
          inProgress := (tasks.filter statusInProgress).length
          feedback := (tasks.filter statusFeedback).length
          urgent := (tasks.filter priorityUrgent).length
          urgentDeadline := getNextUrgentDeadline tasks }

/-! ## Theme service (`src/js/shared/theme-service.js`) — pure functions -/

/-- The constant `THEMES` (theme-service.js:9). -/
def THEMES : List String := ["device", "light", "dark"]

/-- JS `Array.prototype.indexOf`: 0-based index of the first occurrence of
`s`, and `-1` when `s` does not occur. -/
def indexOf : List String → String → Int
  | [], _ => -1
  | x :: xs, s =>
      if x == s then 0
      else if indexOf xs s = -1 then -1 else indexOf xs s + 1

/-- The function `getNextTheme` (theme-service.js:67-70):
`THEMES[(THEMES.indexOf(current) + 1) % THEMES.length]`.  The default
string stands for the JS `undefined` of an out-of-range index; the index
`(idx + 1) % 3` is always in range. -/
def getNextTheme (current : String) : String :=
  let idx := indexOf THEMES current
  THEMES.getD ((idx + 1) % (THEMES.length : Int)).toNat "undefined"

/-- The function `getSystemTheme` (theme-service.js:76-80), parameterised
by the state of the `prefers-color-scheme: dark` media query. -/
def getSystemTheme (prefersDark : Bool) : String :=
  if prefersDark then "dark" else "light"

/-- The defaulting read `localStorage.getItem("joinTheme") || "device"`
used throughout the theme service; `none` models an absent key and the
empty string is falsy. -/
def storedOrDefault : Option String → String
  | none => "device"
  | some s => if s == "" then "device" else s

/-- The resolution expression `theme === "device" ? getSystemTheme() : theme`
shared by `applyTheme` (theme-service.js:305), `applyThemeWithoutIcons`
(theme-service.js:322), `ensureManifestIsUpToDate` (theme-service.js:438)
and `getRealTheme` (summary-layout.js:110). -/
def resolveTheme (theme : String) (prefersDark : Bool) : String :=
  if theme == "device" then getSystemTheme prefersDark else theme

/-- The function `getRealTheme` (summary-layout.js:108-111), over the
stored `joinTheme` value. -/
def getRealTheme (stored : Option String) (prefersDark : Bool) : String :=
  resolveTheme (storedOrDefault stored) prefersDark

/-! ## Theme service — stateful part and effect traces -/

/-- The single handler function the module ever installs as a media-query
listener (`handleSystemThemeChange`, theme-service.js:99-107). -/
inductive Handler
  | handleSystemThemeChange
  deriving Repr, DecidableEq

/-- Externally observable side effects of the theme service, in program
order. -/
inductive Effect
  | storageWrite (key value : String)
  | setDocumentTheme (value : String)
  | forceReflow
  | removeManifestAndFaviconLinks
  | addManifestLink (theme : String)
  | addFaviconLink (theme : String)
  | setThemeColorMeta
  | setThemeIcon (theme : String)
  | summaryIconUpdate (theme : String)
  | workerMessage (msgType : String) (payload : List (String × String))
  | mediaRemoveListener (h : Handler)
  | mediaAddListener (h : Handler)
  deriving Repr, DecidableEq

/-- The mutable state the theme service touches: the `joinTheme` key of
`localStorage` (`none` = absent), the module-level variable
`systemThemeListener` (theme-service.js:27), and the list of change
listeners registered on the media query.  Registration is modelled as an
unconditional append — an over-approximation of `addEventListener`, which
ignores a re-registration of the same function — so an upper bound proved
on `attached.length` also bounds the real listener count. -/
structure ThemeState where
  joinTheme : Option String
  systemThemeListener : Option Handler
  attached : List Handler
  deriving Repr, DecidableEq

/-- The function `storeTheme` (theme-service.js:283-285):
`localStorage.setItem("joinTheme", theme)`. -/
def storeTheme (theme : String) (st : ThemeState) : ThemeState × List Effect :=
  ({ st with joinTheme := some theme }, [.storageWrite "joinTheme" theme])

/-- The function `applyThemeToDocument` (theme-service.js:292-296):
persist the preference, set the `data-theme` attribute, force a reflow. -/
def applyThemeToDocument (theme realTheme : String) (st : ThemeState) :
    ThemeState × List Effect :=
  let stored := storeTheme theme st
  (stored.1, stored.2 ++ [.setDocumentTheme realTheme, .forceReflow])

/-- The function `updateManifestAndFavicon` (theme-service.js:227-231);
DOM-only, no service state. -/
def updateManifestAndFavicon (realTheme : String) : List Effect :=
  [.removeManifestAndFaviconLinks, .addManifestLink realTheme,
   .addFaviconLink realTheme, .setThemeColorMeta]

/-- The function `updateThemeIcon` (theme-service.js:237-242); DOM-only. -/
def updateThemeIcon (theme : String) : List Effect :=
  [.setThemeIcon theme]

/-- The function `updateSummaryIconsForTheme` (theme-service.js:266-277);
DOM-only (runs after a 100 ms delay, still before the caller resumes,
since the caller awaits the returned promise). -/
def updateSummaryIconsForTheme (realTheme : String) : List Effect :=
  [.summaryIconUpdate realTheme]

/-- The function `syncSettingsWithServiceWorker` (theme-service.js:379-389):
posts `{type: "SYNC_SETTINGS", payload: {joinTheme: getItem("joinTheme") || "device"}}`
to the worker. -/
def syncSettingsWithServiceWorker (st : ThemeState) : List Effect :=
  [.workerMessage "SYNC_SETTINGS" [("joinTheme", storedOrDefault st.joinTheme)]]

/-- The function `removeExistingListener` (theme-service.js:86-93): when
the module variable holds a handler, detach it from the media query and
null the variable. -/
def removeExistingListener (st : ThemeState) : ThemeState × List Effect :=
  match st.systemThemeListener with
  | none => (st, [])
  | some h =>
      ({ st with attached := st.attached.erase h, systemThemeListener := none },
       [.mediaRemoveListener h])

/-- The function `setupSystemThemeListener` (theme-service.js:123-129):
tear down any existing listener first; then, only when the stored
preference reads as "device", set the module variable to
`handleSystemThemeChange` and attach it (`attachMediaQueryListener`,
theme-service.js:113-118). -/
def setupSystemThemeListener (st : ThemeState) : ThemeState × List Effect :=
  let removed := removeExistingListener st
  if storedOrDefault removed.1.joinTheme ≠ "device" then removed
  else
    ({ removed.1 with
        systemThemeListener := some .handleSystemThemeChange,
        attached := removed.1.attached ++ [.handleSystemThemeChange] },
     removed.2 ++ [.mediaAddListener .handleSystemThemeChange])

/-- The function `applyTheme` (theme-service.js:303-315): resolve the
preference, apply it to the document (persist + attribute), refresh
manifest/favicon, update the toggle icon and the summary icons, notify
the worker, then (re)install the system-theme listener. -/
def applyTheme (theme : String) (prefersDark : Bool) (st : ThemeState) :
    ThemeState × List Effect :=
  let realTheme := resolveTheme theme prefersDark
  let applied := applyThemeToDocument theme realTheme st
  let setup := setupSystemThemeListener applied.1
  (setup.1,
   applied.2 ++ updateManifestAndFavicon realTheme ++ updateThemeIcon theme
     ++ updateSummaryIconsForTheme realTheme
     ++ syncSettingsWithServiceWorker applied.1 ++ setup.2)

/-- The function `applyThemeWithoutIcons` (theme-service.js:321-327). -/
def applyThemeWithoutIcons (theme : String) (prefersDark : Bool)
    (st : ThemeState) : ThemeState × List Effect :=
  let realTheme := resolveTheme theme prefersDark
  let applied := applyThemeToDocument theme realTheme st
  let setup := setupSystemThemeListener applied.1
  (setup.1,
   applied.2 ++ updateManifestAndFavicon realTheme
     ++ syncSettingsWithServiceWorker applied.1 ++ setup.2)

/-- The entry points through which the page can change the listener state
of the theme service.  `setTheme`, `initTheme` and `handleThemeToggle`
(theme-service.js:334-362) all funnel into `applyTheme`; `setupListener`
and `removeListener` are the direct exports `setupSystemThemeListener`
and `removeSystemThemeListener` (theme-service.js:134-137). -/
inductive ThemeOp
  | applyThemePref (theme : String) (prefersDark : Bool)
  | applyThemePrefWithoutIcons (theme : String) (prefersDark : Bool)
  | initStoredTheme (prefersDark : Bool)
  | themeToggle (prefersDark : Bool)
  | setupListener
  | removeListener
  deriving Repr

/-- State transition of one entry-point invocation. -/
def runOp : ThemeOp → ThemeState → ThemeState
  | .applyThemePref t pd, st => (applyTheme t pd st).1
  | .applyThemePrefWithoutIcons t pd, st => (applyThemeWithoutIcons t pd st).1
  | .initStoredTheme pd, st => (applyTheme (storedOrDefault st.joinTheme) pd st).1
  | .themeToggle pd, st =>
      (applyTheme (getNextTheme (storedOrDefault st.joinTheme)) pd st).1
  | .setupListener, st => (setupSystemThemeListener st).1
  | .removeListener, st => (removeExistingListener st).1

/-- Run a sequence of entry-point invocations. -/
def runOps (st : ThemeState) : List ThemeOp → ThemeState
  | [] => st
  | op :: ops => runOps (runOp op st) ops

/-- The media-query listener list mirrors the module variable: the
well-formedness invariant of the listener state. -/
def listenerWellFormed (st : ThemeState) : Prop :=
  st.attached = st.systemThemeListener.toList

/-! ## Background worker (`src/service-worker-template.js`) -/

/-- IndexedDB `store.put({key, value})` on an object store with
`keyPath: "key"`: replace the record whose key matches, else append. -/
def storePut : List (String × String) → String → String → List (String × String)
  | [], k, v => [(k, v)]
  | e :: es, k, v => if e.1 == k then (k, v) :: es else e :: storePut es k v

/-- Read a record by key from the settings store. -/
def storeGet (store : List (String × String)) (k : String) : Option String :=
  (store.find? (fun e => e.1 == k)).map Prod.snd

/-- The function `syncSettingsToWorker` (service-worker-template.js:247-262):
`store.clear()`, then `store.put({key, value})` for each entry of
`Object.entries(settings)` (whose keys are pairwise distinct). -/
def syncSettingsToWorker (settings store : List (String × String)) :
    List (String × String) :=
  let cleared : List (String × String) := []
  let _ := store
  settings.foldl (fun s e => storePut s e.1 e.2) cleared

/-- A message received by the worker message listener
(service-worker-template.js:215-224); `other` covers every event whose
`data.type` is neither recognised tag. -/
inductive WorkerMsg
  | syncSettings (payload : List (String × String))
  | checkUpdate
  | other
  deriving Repr

/-- The worker message listener together with
`storeVersionAndNotifyClients` (service-worker-template.js:215-245), as a
transformer of the settings store: `SYNC_SETTINGS` overwrites the store
with the payload, `CHECK_UPDATE` writes the `sw-version` record, and any
other message leaves the store untouched. -/
def handleWorkerMessage (cacheVersion : String) :
    WorkerMsg → List (String × String) → List (String × String)
  | .syncSettings payload, store => syncSettingsToWorker payload store
  | .checkUpdate, store => storePut store "sw-version" cacheVersion
  | .other, store => store

/-! ## Helper lemmas about the due-date sort -/

theorem mem_insertByDue {a t : Task} {l : List Task} :
    a ∈ insertByDue t l ↔ a = t ∨ a ∈ l := by
  induction l with
  | nil => simp [insertByDue]
  | cons u us ih =>
      by_cases h : dueDateVal t.dueDate ≤ dueDateVal u.dueDate
      · simp only [insertByDue, if_pos h, List.mem_cons]
      · simp only [insertByDue, if_neg h, List.mem_cons, ih]
        tauto

theorem mem_sortByDue {a : Task} {l : List Task} :
    a ∈ sortByDue l ↔ a ∈ l := by
  induction l with
  | nil => simp [sortByDue]
  | cons t ts ih => simp [sortByDue, mem_insertByDue, ih]

theorem pairwise_insertByDue {t : Task} {l : List Task}
    (hl : l.Pairwise (fun a b => dueDateVal a.dueDate ≤ dueDateVal b.dueDate)) :
    (insertByDue t l).Pairwise
      (fun a b => dueDateVal a.dueDate ≤ dueDateVal b.dueDate) := by
  induction l with
  | nil => simp [insertByDue]
  | cons u us ih =>
      rcases List.pairwise_cons.mp hl with ⟨hu, hus⟩
      by_cases h : dueDateVal t.dueDate ≤ dueDateVal u.dueDate
      · simp only [insertByDue, if_pos h]
        refine List.pairwise_cons.mpr ⟨?_, hl⟩
        intro b hb
        rcases List.mem_cons.mp hb with rfl | hb
        · exact h
        · exact le_trans h (hu b hb)
      · simp only [insertByDue, if_neg h]
        refine List.pairwise_cons.mpr ⟨?_, ih hus⟩
        intro b hb
        rcases mem_insertByDue.mp hb with rfl | hb
        · exact le_of_not_le h
        · exact hu b hb

theorem pairwise_sortByDue (l : List Task) :
    (sortByDue l).Pairwise
      (fun a b => dueDateVal a.dueDate ≤ dueDateVal b.dueDate) := by
  induction l with
  | nil => simp [sortByDue]
  | cons t ts ih =>
      simp only [sortByDue]
      exact pairwise_insertByDue ih

/-! ## Claim theorems -/

/-- C1: for every task list containing at least one urgent, not-done task
with a (truthy) due date, `getNextUrgentDeadline` returns the due date of
an urgent, not-done task of the list whose date key is least among all
urgent, not-done tasks with due dates; in particular, on two urgent tasks
due 2024-01-05 and 2024-01-02 it returns 2024-01-02. -/
theorem C1_nearest_urgent_deadline :
    (∀ (tasks : List Task), ∀ t ∈ tasks, urgentPending t = true →
      ∃ u ∈ tasks, urgentPending u = true ∧
        getNextUrgentDeadline tasks = u.dueDate ∧
        ∀ v ∈ tasks, urgentPending v = true →
          dueDateVal u.dueDate ≤ dueDateVal v.dueDate) ∧
    getNextUrgentDeadline
      [{ status := some "todo", priority := some "urgent", prio := none,
         dueDate := some "2024-01-05" },
       { status := some "in-progress", priority := some "urgent", prio := none,
         dueDate := some "2024-01-02" }] = some "2024-01-02" := by
  constructor
  · intro tasks t ht hu
    have htf : t ∈ tasks.filter urgentPending := List.mem_filter.mpr ⟨ht, hu⟩
    have hne : ¬ (tasks.filter urgentPending).length = 0 := by
      intro h0
      rw [List.length_eq_zero] at h0
      rw [h0] at htf
      exact absurd htf (List.not_mem_nil t)
    cases hs : sortByDue (tasks.filter urgentPending) with
    | nil =>
        exfalso
        have : t ∈ sortByDue (tasks.filter urgentPending) := mem_sortByDue.mpr htf
        rw [hs] at this
        exact absurd this (List.not_mem_nil t)
    | cons u rest =>
        have humem : u ∈ tasks.filter urgentPending := by
          have : u ∈ sortByDue (tasks.filter urgentPending) := by
            rw [hs]; exact List.mem_cons_self u rest
          exact mem_sortByDue.mp this
        refine ⟨u, (List.mem_filter.mp humem).1, (List.mem_filter.mp humem).2,
          ?_, ?_⟩
        · simp only [getNextUrgentDeadline, if_neg hne, hs]
        · intro v hv hvp
          have hvs : v ∈ sortByDue (tasks.filter urgentPending) :=
            mem_sortByDue.mpr (List.mem_filter.mpr ⟨hv, hvp⟩)
          rw [hs] at hvs
          rcases List.mem_cons.mp hvs with rfl | hvs
          · exact le_refl _
          · have hp := pairwise_sortByDue (tasks.filter urgentPending)
            rw [hs] at hp
            exact (List.pairwise_cons.mp hp).1 v hvs
  · decide

/-- C1 witness: the two-task example instantiates the minimality theorem. -/
theorem C1_nearest_urgent_deadline_witness :
    ∃ u ∈ [({ status := some "todo", priority := some "urgent", prio := none,
              dueDate := some "2024-01-05" } : Task),
           { status := some "in-progress", priority := some "urgent", prio := none,
             dueDate := some "2024-01-02" }],
      urgentPending u = true ∧
      getNextUrgentDeadline
        [{ status := some "todo", priority := some "urgent", prio := none,
           dueDate := some "2024-01-05" },
         { status := some "in-progress", priority := some "urgent", prio := none,
           dueDate := some "2024-01-02" }] = u.dueDate ∧
      ∀ v ∈ [({ status := some "todo", priority := some "urgent", prio := none,
                dueDate := some "2024-01-05" } : Task),
             { status := some "in-progress", priority := some "urgent", prio := none,
               dueDate := some "2024-01-02" }],
        urgentPending v = true →
          dueDateVal u.dueDate ≤ dueDateVal v.dueDate :=
  C1_nearest_urgent_deadline.1 _
    { status := some "todo", priority := some "urgent", prio := none,
      dueDate := some "2024-01-05" }
    (by decide) (by decide)

/-- C4: a `null`/`undefined` task list and the empty task list both yield
the all-zero summary with a null deadline, which is exactly
`getEmptyStats`. -/
theorem C4_empty_input_zero_stats :
    calculateStats none
      = { total := 0, todo := 0, done := 0, inProgress := 0, feedback := 0,
          urgent := 0, urgentDeadline := none } ∧
    calculateStats (some [])
      = { total := 0, todo := 0, done := 0, inProgress := 0, feedback := 0,
          urgent := 0, urgentDeadline := none } ∧
    getEmptyStats
      = { total := 0, todo := 0, done := 0, inProgress := 0, feedback := 0,
          urgent := 0, urgentDeadline := none } := by
  exact ⟨rfl, rfl, rfl⟩

/-- C8: `getNextTheme` rotates device → light → dark → device, so three
applications are the identity on each of the three preferences. -/
theorem C8_toggle_cycle :
    getNextTheme (getNextTheme (getNextTheme "device")) = "device" ∧
    getNextTheme (getNextTheme (getNextTheme "light")) = "light" ∧
    getNextTheme (getNextTheme (getNextTheme "dark")) = "dark" ∧
    getNextTheme "device" = "light" ∧
    getNextTheme "light" = "dark" ∧
    getNextTheme "dark" = "device" := by
  decide

/-! ## Helper lemmas about the status buckets -/

theorem statusKinds_disjoint (s : String) :
    ((if (s == "todo" || s == "to-do") = true then 1 else 0)
      + (if (s == "in-progress" || s == "progress") = true then 1 else 0)
      + (if (s == "awaiting-feedback" || s == "await") = true then 1 else 0)
      + (if (s == "done") = true then 1 else 0) : Nat) ≤ 1 := by
  rcases eq_or_ne s "todo" with rfl | h1
  · decide
  rcases eq_or_ne s "to-do" with rfl | h2
  · decide
  rcases eq_or_ne s "in-progress" with rfl | h3
  · decide
  rcases eq_or_ne s "progress" with rfl | h4
  · decide
  rcases eq_or_ne s "awaiting-feedback" with rfl | h5
  · decide
  rcases eq_or_ne s "await" with rfl | h6
  · decide
  rcases eq_or_ne s "done" with rfl | h7
  · decide
  simp [h1, h2, h3, h4, h5, h6, h7]

theorem statusBuckets_le_one (t : Task) :
    ((if statusTodo t then 1 else 0) + (if statusInProgress t then 1 else 0)
      + (if statusFeedback t then 1 else 0)
      + (if statusDone t then 1 else 0) : Nat) ≤ 1 := by
  rcases t with ⟨status, p, pr, d⟩
  rcases status with _ | s
  · simp [statusTodo, statusInProgress, statusFeedback, statusDone, strictEq]
  · simpa [statusTodo, statusInProgress, statusFeedback, statusDone, strictEq]
      using statusKinds_disjoint s

theorem countFourBuckets_le (l : List Task) :
    (l.filter statusTodo).length + (l.filter statusInProgress).length
      + (l.filter statusFeedback).length + (l.filter statusDone).length
      ≤ l.length := by
  induction l with
  | nil => simp
  | cons t ts ih =>
      have hd := statusBuckets_le_one t
      simp only [List.filter_cons, List.length_cons]
      by_cases h1 : statusTodo t <;> by_cases h2 : statusInProgress t <;>
        by_cases h3 : statusFeedback t <;> by_cases h4 : statusDone t <;>
        simp [h1, h2, h3, h4] at hd ⊢ <;> omega

/-- C2: for every task list, `calculateStats` reports `total` equal to the
list length, each of the four status buckets bounded by `total`, and the
four buckets summing to at most `total`. -/
theorem C2_stats_consistent (tasks : List Task) :
    (calculateStats (some tasks)).total = tasks.length ∧
    (calculateStats (some tasks)).todo ≤ (calculateStats (some tasks)).total ∧
    (calculateStats (some tasks)).inProgress
      ≤ (calculateStats (some tasks)).total ∧
    (calculateStats (some tasks)).feedback
      ≤ (calculateStats (some tasks)).total ∧
    (calculateStats (some tasks)).done ≤ (calculateStats (some tasks)).total ∧
    (calculateStats (some tasks)).todo + (calculateStats (some tasks)).inProgress
      + (calculateStats (some tasks)).feedback
      + (calculateStats (some tasks)).done
      ≤ (calculateStats (some tasks)).total := by
  by_cases h : tasks.length = 0
  · rw [List.length_eq_zero] at h
    subst h
    decide
  · have e : calculateStats (some tasks) =
        { total := tasks.length,
          todo := (tasks.filter statusTodo).length,
          done := (tasks.filter statusDone).length,
          inProgress := (tasks.filter statusInProgress).length,
          feedback := (tasks.filter statusFeedback).length,
          urgent := (tasks.filter priorityUrgent).length,
          urgentDeadline := getNextUrgentDeadline tasks } := by
      simp only [calculateStats, if_neg h]
    rw [e]
    exact ⟨rfl, List.length_filter_le _ _, List.length_filter_le _ _,
      List.length_filter_le _ _, List.length_filter_le _ _,
      countFourBuckets_le tasks⟩

/-- C6 counterexample: the done bucket does not tolerate two spellings —
only the single status string "done" is ever counted as done, so there is
no pair of distinct spellings both counted in the done bucket. -/
theorem C6_done_single_spelling :
    ¬ ∃ s1 s2 : String, s1 ≠ s2 ∧
      statusDone { status := some s1, priority := none, prio := none,
                   dueDate := none } = true ∧
      statusDone { status := some s2, priority := none, prio := none,
                   dueDate := none } = true := by
  rintro ⟨s1, s2, hne, hd1, hd2⟩
  simp only [statusDone, strictEq, beq_iff_eq] at hd1 hd2
  exact hne (hd1.trans hd2.symm)

/-- C6 (amended): the aggregator tolerates two historical spellings for
the todo, in-progress and feedback buckets, while the done bucket counts
the single spelling "done"; on the example list
`[{status:"todo"}, {status:"to-do"}, {status:"done"}]` the todo count is
2, the done count is 1 and the total is 3. -/
theorem C6_status_spellings :
    (∀ t : Task, statusTodo t = true ↔
      (t.status = some "todo" ∨ t.status = some "to-do")) ∧
    (∀ t : Task, statusInProgress t = true ↔
      (t.status = some "in-progress" ∨ t.status = some "progress")) ∧
    (∀ t : Task, statusFeedback t = true ↔
      (t.status = some "awaiting-feedback" ∨ t.status = some "await")) ∧
    (∀ t : Task, statusDone t = true ↔ t.status = some "done") ∧
    (calculateStats (some
      [{ status := some "todo", priority := none, prio := none, dueDate := none },
       { status := some "to-do", priority := none, prio := none, dueDate := none },
       { status := some "done", priority := none, prio := none, dueDate := none }])).todo
      = 2 ∧
    (calculateStats (some
      [{ status := some "todo", priority := none, prio := none, dueDate := none },
       { status := some "to-do", priority := none, prio := none, dueDate := none },
       { status := some "done", priority := none, prio := none, dueDate := none }])).done
      = 1 ∧
    (calculateStats (some
      [{ status := some "todo", priority := none, prio := none, dueDate := none },
       { status := some "to-do", priority := none, prio := none, dueDate := none },
       { status := some "done", priority := none, prio := none, dueDate := none }])).total
      = 3 := by
  refine ⟨?_, ?_, ?_, ?_, by decide, by decide, by decide⟩ <;>
    intro t <;> rcases ht : t.status with _ | s <;>
    simp [statusTodo, statusInProgress, statusFeedback, statusDone, strictEq, ht]

/-- C6 witness: the legacy spelling "to-do" is counted in the todo bucket. -/
theorem C6_status_spellings_witness :
    statusTodo { status := some "to-do", priority := none, prio := none,
                 dueDate := none } = true :=
  (C6_status_spellings.1
    { status := some "to-do", priority := none, prio := none,
      dueDate := none }).mpr (Or.inr rfl)

/-- C5: resolving a preference is the identity on "light" and "dark";
resolving "device" yields "light" or "dark" and never "device"; hence on
the whole preference set the resolved theme is one of the two concrete
rendering values, both for the shared resolution expression and for
`getRealTheme`. -/
theorem C5_resolve_two_values (prefersDark : Bool) :
    resolveTheme "light" prefersDark = "light" ∧
    resolveTheme "dark" prefersDark = "dark" ∧
    (resolveTheme "device" prefersDark = "light" ∨
      resolveTheme "device" prefersDark = "dark") ∧
    resolveTheme "device" prefersDark ≠ "device" ∧
    (∀ theme ∈ THEMES, resolveTheme theme prefersDark = "light" ∨
      resolveTheme theme prefersDark = "dark") ∧
    (∀ stored : Option String, storedOrDefault stored ∈ THEMES →
      (getRealTheme stored prefersDark = "light" ∨
        getRealTheme stored prefersDark = "dark")) := by
  have hmem : ∀ (pd : Bool), ∀ theme ∈ THEMES,
      resolveTheme theme pd = "light" ∨ resolveTheme theme pd = "dark" := by
    intro pd theme h
    fin_cases h <;> cases pd <;> decide
  have hreal : ∀ (pd : Bool) (stored : Option String),
      storedOrDefault stored ∈ THEMES →
      getRealTheme stored pd = "light" ∨ getRealTheme stored pd = "dark" := by
    intro pd stored h
    exact hmem pd _ h
  cases prefersDark <;>
    exact ⟨by decide, by decide, by decide, by decide, hmem _, hreal _⟩

/-- C5 witness: the device preference read from storage resolves to one of
the two concrete rendering themes. -/
theorem C5_resolve_two_values_witness :
    getRealTheme (some "device") true = "light" ∨
    getRealTheme (some "device") true = "dark" :=
  (C5_resolve_two_values true).2.2.2.2.2 (some "device") (by decide)

/-- C10: on any string outside the three valid preferences, `indexOf`
yields -1, so `getNextTheme` is total and returns "device", re-entering
the valid preference set after one toggle step. -/
theorem C10_invalid_pref_recovers (s : String) (h : s ∉ THEMES) :
    getNextTheme s = "device" ∧ getNextTheme s ∈ THEMES := by
  simp only [THEMES, List.mem_cons, List.not_mem_nil, or_false, not_or] at h
  obtain ⟨h1, h2, h3⟩ := h
  have hidx : indexOf THEMES s = -1 := by
    simp [THEMES, indexOf, Ne.symm h1, Ne.symm h2, Ne.symm h3]
  have hdev : getNextTheme s = "device" := by
    show THEMES.getD ((indexOf THEMES s + 1) % (THEMES.length : Int)).toNat
      "undefined" = "device"
    rw [hidx]
    decide
  exact ⟨hdev, by rw [hdev]; decide⟩

/-- C10 witness: a corrupted stored preference recovers to "device". -/
theorem C10_invalid_pref_recovers_witness :
    "corrupted" ∉ THEMES ∧ getNextTheme "corrupted" = "device" :=
  ⟨by decide, (C10_invalid_pref_recovers "corrupted" (by decide)).1⟩

/-- C3: in every invocation of `applyTheme` (and of
`applyThemeWithoutIcons`), a `SYNC_SETTINGS` worker message occurs in the
effect trace, and every such message is preceded — at a strictly earlier
trace position — by the `localStorage` write of the new preference; so no
execution notifies the worker before the preference is persisted. -/
theorem C3_persist_before_notify (theme : String) (prefersDark : Bool)
    (st : ThemeState) :
    (∃ (j : Nat) (p : List (String × String)), ((applyTheme theme prefersDark st).2).get? j
        = some (Effect.workerMessage "SYNC_SETTINGS" p)) ∧
    (∀ (j : Nat) (p : List (String × String)), ((applyTheme theme prefersDark st).2).get? j
        = some (Effect.workerMessage "SYNC_SETTINGS" p) →
      ∃ i, i < j ∧ ((applyTheme theme prefersDark st).2).get? i
        = some (Effect.storageWrite "joinTheme" theme)) ∧
    (∃ (j : Nat) (p : List (String × String)), ((applyThemeWithoutIcons theme prefersDark st).2).get? j
        = some (Effect.workerMessage "SYNC_SETTINGS" p)) ∧
    (∀ (j : Nat) (p : List (String × String)), ((applyThemeWithoutIcons theme prefersDark st).2).get? j
        = some (Effect.workerMessage "SYNC_SETTINGS" p) →
      ∃ i, i < j ∧ ((applyThemeWithoutIcons theme prefersDark st).2).get? i
        = some (Effect.storageWrite "joinTheme" theme)) := by
  refine ⟨⟨9, [("joinTheme", storedOrDefault (some theme))], rfl⟩, ?_,
    ⟨7, [("joinTheme", storedOrDefault (some theme))], rfl⟩, ?_⟩
  · intro j p hj
    refine ⟨0, ?_, rfl⟩
    cases j with
    | zero =>
        exact absurd (Option.some.inj hj)
          (fun he => Effect.noConfusion he)
    | succ n => exact Nat.succ_pos n
  · intro j p hj
    refine ⟨0, ?_, rfl⟩
    cases j with
    | zero =>
        exact absurd (Option.some.inj hj)
          (fun he => Effect.noConfusion he)
    | succ n => exact Nat.succ_pos n

/-- C3 witness: instantiation at a concrete preference and state. -/
theorem C3_persist_before_notify_witness :
    ∃ (j : Nat) (p : List (String × String)), ((applyTheme "dark" false ⟨none, none, []⟩).2).get? j
      = some (Effect.workerMessage "SYNC_SETTINGS" p) :=
  (C3_persist_before_notify "dark" false ⟨none, none, []⟩).1

/-! ## Helper lemmas for the listener invariant -/

theorem applyTheme_state (theme : String) (pd : Bool) (st : ThemeState) :
    (applyTheme theme pd st).1
      = (setupSystemThemeListener { st with joinTheme := some theme }).1 := rfl

theorem applyThemeWithoutIcons_state (theme : String) (pd : Bool)
    (st : ThemeState) :
    (applyThemeWithoutIcons theme pd st).1
      = (setupSystemThemeListener { st with joinTheme := some theme }).1 := rfl

theorem removeExisting_state (st : ThemeState) (hwf : listenerWellFormed st) :
    (removeExistingListener st).1.attached = [] ∧
    (removeExistingListener st).1.systemThemeListener = none ∧
    (removeExistingListener st).1.joinTheme = st.joinTheme := by
  rcases st with ⟨j, lvar, att⟩
  rcases lvar with _ | hl
  · refine ⟨?_, rfl, rfl⟩
    simpa [listenerWellFormed] using hwf
  · have hatt : att = [hl] := by simpa [listenerWellFormed] using hwf
    subst hatt
    simp [removeExistingListener]

theorem setup_state (st : ThemeState) (hwf : listenerWellFormed st) :
    listenerWellFormed (setupSystemThemeListener st).1 ∧
    (setupSystemThemeListener st).1.joinTheme = st.joinTheme ∧
    ((setupSystemThemeListener st).1.attached ≠ [] →
      storedOrDefault st.joinTheme = "device") := by
  obtain ⟨ha, hl, hj⟩ := removeExisting_state st hwf
  by_cases hc :
      storedOrDefault (removeExistingListener st).1.joinTheme ≠ "device"
  · rw [setupSystemThemeListener, if_pos hc]
    refine ⟨?_, hj, fun hne => absurd ha hne⟩
    simp [listenerWellFormed, ha, hl]
  · rw [setupSystemThemeListener, if_neg hc]
    push_neg at hc
    refine ⟨?_, hj, fun _ => by rw [← hj]; exact hc⟩
    simp [listenerWellFormed, ha]

/-- The inductive invariant of the listener state: the media-query
registrations mirror the module variable, and a registration exists only
under the device preference. -/
def listenerInvariant (st : ThemeState) : Prop :=
  listenerWellFormed st ∧
  (st.attached ≠ [] → storedOrDefault st.joinTheme = "device")

theorem runOp_invariant (op : ThemeOp) (st : ThemeState)
    (h : listenerInvariant st) : listenerInvariant (runOp op st) := by
  obtain ⟨hwf, hdev⟩ := h
  have happly : ∀ t : String, listenerInvariant
      (setupSystemThemeListener { st with joinTheme := some t }).1 := by
    intro t
    have hwf2 : listenerWellFormed { st with joinTheme := some t } := hwf
    obtain ⟨h1, h2, h3⟩ := setup_state _ hwf2
    exact ⟨h1, fun hne => by rw [h2]; exact h3 hne⟩
  cases op with
  | applyThemePref t pd =>
      rw [runOp, applyTheme_state]
      exact happly t
  | applyThemePrefWithoutIcons t pd =>
      rw [runOp, applyThemeWithoutIcons_state]
      exact happly t
  | initStoredTheme pd =>
      rw [runOp, applyTheme_state]
      exact happly _
  | themeToggle pd =>
      rw [runOp, applyTheme_state]
      exact happly _
  | setupListener =>
      obtain ⟨h1, h2, h3⟩ := setup_state st hwf
      exact ⟨h1, fun hne => by rw [runOp] at hne ⊢; rw [h2]; exact h3 hne⟩
  | removeListener =>
      obtain ⟨h1, h2, h3⟩ := removeExisting_state st hwf
      refine ⟨?_, fun hne => ?_⟩
      · rw [runOp, listenerWellFormed, h1, h2]
        rfl
      · rw [runOp] at hne
        exact absurd h1 hne

theorem runOps_invariant (ops : List ThemeOp) (st : ThemeState)
    (h : listenerInvariant st) : listenerInvariant (runOps st ops) := by
  induction ops generalizing st with
  | nil => exact h
  | cons op ops ih => exact ih _ (runOp_invariant op st h)

/-- C7: starting from a fresh page context (no listener installed), after
any sequence of theme-service entry points at most one media-query
listener is attached, and one is attached only when the stored preference
reads as "device"; moreover `setupSystemThemeListener` always begins by
tearing down a previously installed listener (its trace starts with the
removal) before any new registration. -/
theorem C7_at_most_one_listener (stored : Option String)
    (ops : List ThemeOp) :
    ((runOps ⟨stored, none, []⟩ ops).attached.length ≤ 1 ∧
     ((runOps ⟨stored, none, []⟩ ops).attached ≠ [] →
       storedOrDefault (runOps ⟨stored, none, []⟩ ops).joinTheme
         = "device")) ∧
    (∀ (st : ThemeState) (hl : Handler), st.systemThemeListener = some hl →
      ∃ rest, (setupSystemThemeListener st).2
        = Effect.mediaRemoveListener hl :: rest) := by
  constructor
  · have hinit : listenerInvariant (⟨stored, none, []⟩ : ThemeState) :=
      ⟨rfl, fun hne => absurd rfl hne⟩
    obtain ⟨hwf, hdev⟩ := runOps_invariant ops _ hinit
    refine ⟨?_, hdev⟩
    rw [hwf]
    cases (runOps ⟨stored, none, []⟩ ops).systemThemeListener <;> simp
  · intro st hl hs
    rcases st with ⟨j, lvar, att⟩
    cases hs
    simp only [setupSystemThemeListener, removeExistingListener]
    split
    · exact ⟨[], rfl⟩
    · exact ⟨[Effect.mediaAddListener Handler.handleSystemThemeChange], rfl⟩

/-- C7 witness: two consecutive listener installations under the device
preference leave a single attached listener. -/
theorem C7_at_most_one_listener_witness :
    (runOps ⟨some "device", none, []⟩
      [ThemeOp.setupListener, ThemeOp.setupListener]).attached.length ≤ 1 :=
  (C7_at_most_one_listener (some "device")
    [ThemeOp.setupListener, ThemeOp.setupListener]).1.1

/-! ## Helper lemmas for the worker settings store -/

theorem storeGet_storePut (s : List (String × String)) (k v k' : String) :
    storeGet (storePut s k v) k' = if k' = k then some v else storeGet s k' := by
  induction s with
  | nil =>
      by_cases h : k' = k
      · subst h; simp [storePut, storeGet]
      · have hb : (k == k') = false := by
          rw [beq_eq_false_iff_ne]; exact Ne.symm h
        simp [storePut, storeGet, List.find?, hb, h]
  | cons e es ih =>
      by_cases he : e.1 = k
      · have hbe : (e.1 == k) = true := by simp [he]
        by_cases h : k' = k
        · subst h
          simp [storePut, storeGet, List.find?, hbe]
        · have hb1 : (k == k') = false := by
            rw [beq_eq_false_iff_ne]; exact Ne.symm h
          have hb2 : (e.1 == k') = false := by rw [he]; exact hb1
          simp [storePut, storeGet, List.find?, hbe, hb1, hb2, h]
      · have hbeF : (e.1 == k) = false := by
          rw [beq_eq_false_iff_ne]; exact he
        by_cases h2 : e.1 = k'
        · have hb2T : (e.1 == k') = true := by simp [h2]
          have hk : ¬ k' = k := fun hh => he (h2.trans hh)
          simp [storePut, storeGet, List.find?, hbeF, hb2T, hk]
        · have hb2F : (e.1 == k') = false := by
            rw [beq_eq_false_iff_ne]; exact h2
          simp only [storeGet] at ih
          simp [storePut, storeGet, List.find?, hbeF, hb2F, ih]

theorem foldPut_get_of_not_mem (ps : List (String × String))
    (acc : List (String × String)) (k : String)
    (h : k ∉ ps.map Prod.fst) :
    storeGet (ps.foldl (fun s e => storePut s e.1 e.2) acc) k
      = storeGet acc k := by
  induction ps generalizing acc with
  | nil => rfl
  | cons e es ih =>
      simp only [List.map_cons, List.mem_cons, not_or] at h
      rw [List.foldl_cons, ih _ h.2, storeGet_storePut, if_neg h.1]

theorem foldPut_get_of_mem (ps : List (String × String))
    (acc : List (String × String)) (k : String)
    (hnd : (ps.map Prod.fst).Nodup) (h : k ∈ ps.map Prod.fst) :
    storeGet (ps.foldl (fun s e => storePut s e.1 e.2) acc) k
      = (ps.find? (fun e => e.1 == k)).map Prod.snd := by
  induction ps generalizing acc with
  | nil => simp at h
  | cons e es ih =>
      rw [List.map_cons] at hnd h
      rw [List.nodup_cons] at hnd
      by_cases he : e.1 = k
      · have hk : k ∉ es.map Prod.fst := he ▸ hnd.1
        have hbe : (e.1 == k) = true := by simp [he]
        rw [List.foldl_cons, foldPut_get_of_not_mem es _ k hk,
          storeGet_storePut, if_pos he.symm]
        simp [List.find?, hbe]
      · have hk : k ∈ es.map Prod.fst := by
          rcases List.mem_cons.mp h with h' | h'
          · exact absurd h'.symm he
          · exact h'
        have hbe : (e.1 == k) = false := by
          rw [beq_eq_false_iff_ne]; exact he
        rw [List.foldl_cons, ih _ hnd.2 hk]
        simp [List.find?, hbe]

/-- C9: processing a `SYNC_SETTINGS` message replaces the worker settings
store by exactly the payload entries — every key looks up to its payload
value, and every key absent from the payload (in particular any entry
present before the message) is gone. -/
theorem C9_sync_settings_overwrites (version : String)
    (store payload : List (String × String))
    (hnd : (payload.map Prod.fst).Nodup) :
    (∀ k, storeGet (handleWorkerMessage version (.syncSettings payload) store) k
      = (payload.find? (fun e => e.1 == k)).map Prod.snd) ∧
    (∀ k, k ∉ payload.map Prod.fst →
      storeGet (handleWorkerMessage version (.syncSettings payload) store) k
        = none) := by
  have hmain : ∀ k,
      storeGet (handleWorkerMessage version (.syncSettings payload) store) k
        = (payload.find? (fun e => e.1 == k)).map Prod.snd := by
    intro k
    show storeGet (payload.foldl (fun s e => storePut s e.1 e.2) []) k = _
    by_cases h : k ∈ payload.map Prod.fst
    · exact foldPut_get_of_mem payload [] k hnd h
    · rw [foldPut_get_of_not_mem payload [] k h]
      have hf : payload.find? (fun e => e.1 == k) = none := by
        rw [List.find?_eq_none]
        intro e he hbe
        exact h (by
          simp only [List.mem_map]
          exact ⟨e, he, by simpa using hbe⟩)
      rw [hf]
      rfl
  refine ⟨hmain, fun k hk => ?_⟩
  rw [hmain k]
  have hf : payload.find? (fun e => e.1 == k) = none := by
    rw [List.find?_eq_none]
    intro e he hbe
    exact hk (by
      simp only [List.mem_map]
      exact ⟨e, he, by simpa using hbe⟩)
  rw [hf]
  rfl

/-- C9 witness: syncing a one-entry payload over a non-empty store keeps
exactly the payload entry and drops the stale one. -/
theorem C9_sync_settings_overwrites_witness :
    storeGet (handleWorkerMessage "v1"
        (.syncSettings [("joinTheme", "dark")]) [("stale", "x")])
      "joinTheme" = some "dark" ∧
    storeGet (handleWorkerMessage "v1"
        (.syncSettings [("joinTheme", "dark")]) [("stale", "x")])
      "stale" = none :=
  ⟨((C9_sync_settings_overwrites "v1" [("stale", "x")]
      [("joinTheme", "dark")] (by decide)).1 "joinTheme").trans (by decide),
   (C9_sync_settings_overwrites "v1" [("stale", "x")]
      [("joinTheme", "dark")] (by decide)).2 "stale" (by decide)⟩

end Join
